import Mathlib

/-!
Shallow embedding of `src/app.py` (a Streamlit speech-recognition front-end)
and proofs about the claims of its specification.

The program is a single linear script.  We embed:
  * the Python string methods the script uses (`startswith`, `strip`,
    `join`, `split`, lowercase suffix extraction), modelled over `List Char`;
  * the function `transcribe_speech_from_file` (src/app.py lines 62-126) as a
    total function from an environment describing what each external call
    does (temp-file creation/write, audio-file opening/recording, the
    provider's recognize call, the final unlink) to an instrumented result
    that also records whether the temp file was created/deleted and whether
    the provider was invoked;
  * the session state (`last_transcript`, `segments`) and the button
    handlers (lines 137-205) as state-transition functions.
-/

/-! ## Models of the Python string methods used by the script -/

/-- Python `message.startswith(prefix)` (src/app.py line 145). -/
def pyStartswith (s pre : String) : Bool :=
  pre.data.isPrefixOf s.data

/-- Python `s.strip()` with no argument (src/app.py line 194): remove
whitespace from both ends.  (Python also strips `\v`, `\f` and other Unicode
whitespace; the transcripts handled here make the ASCII set sufficient.) -/
def pyStrip (s : String) : String :=
  ⟨((s.data.dropWhile Char.isWhitespace).reverse.dropWhile Char.isWhitespace).reverse⟩

/-- Python `sep.join(xs)` (src/app.py line 194). -/
def pyJoin (sep : String) : List String → String
  | [] => ""
  | [x] => x
  | x :: y :: xs => x ++ sep ++ pyJoin sep (y :: xs)

/-- Python `s.split()[0]` (src/app.py line 179): first maximal run of
non-whitespace characters after any leading whitespace.  (Python raises
`IndexError` on an all-whitespace string; the API values used here —
`"google"`, `"sphinx"` — always have a first word.) -/
def pySplitHead (s : String) : String :=
  ⟨(s.data.dropWhile Char.isWhitespace).takeWhile (fun c => !c.isWhitespace)⟩

/-- Python `"." + uploaded_file.name.split(".")[-1].lower()`
(src/app.py line 72): the lowercased last dot-separated component of the
uploaded file name, used as the temp-file suffix. -/
def pySuffix (name : String) : String :=
  "." ++ ⟨((name.data.splitOn '.').getLastD []).map Char.toLower⟩

/-! ## Exceptions

The exception classes that the script's `except` clauses distinguish.
`sr.UnknownValueError` and `sr.RequestError` derive directly from
`Exception` in the `speech_recognition` library, so the outer
`except FileNotFoundError` / `except ValueError` clauses do not catch them;
`other` covers every further `Exception` subclass (carrying its class name).
Each constructor carries `str(e)`. -/
inductive Exc where
  | unknownValueError (s : String)
  | requestError (s : String)
  | fileNotFoundError (s : String)
  | valueError (s : String)
  | other (name : String) (s : String)
deriving DecidableEq, Repr

/-- Python `type(e).__name__`. -/
def excName : Exc → String
  | .unknownValueError _ => "UnknownValueError"
  | .requestError _ => "RequestError"
  | .fileNotFoundError _ => "FileNotFoundError"
  | .valueError _ => "ValueError"
  | .other n _ => n

/-- Python `str(e)`. -/
def excStr : Exc → String
  | .unknownValueError s => s
  | .requestError s => s
  | .fileNotFoundError s => s
  | .valueError s => s
  | .other _ s => s

/-- Python `f"{type(e).__name__}: {e}"`, the debug string built on most
error paths. -/
def excDetail (e : Exc) : String :=
  excName e ++ ": " ++ excStr e

/-! ## The user-facing messages (byte-exact strings of src/app.py) -/

/-- The marker every error message starts with (U+2757 U+FE0F), tested by
the caller at src/app.py line 145. -/
def err_marker : String := "❗️"

/-- src/app.py line 78. -/
def msg_tmp_fail : String :=
  "❗️ Impossible de créer un fichier temporaire pour l\x27audio."

/-- src/app.py lines 91-92 (two adjacent literals, one string). -/
def msg_google_unknown : String :=
  "❗️ L’API Google n’a pas compris l’audio. " ++
  "Conseils: parlez plus fort, réduisez le bruit, vérifiez la langue choisie."

/-- src/app.py lines 95-96. -/
def msg_google_request : String :=
  "❗️ Erreur de service Google (réseau/quota/clé). " ++
  "Vérifiez votre connexion Internet, réessayez plus tard."

/-- src/app.py line 105. -/
def msg_sphinx_unknown : String :=
  "❗️ Sphinx n’a pas compris l’audio (souvent sensible à la qualité/anglais)."

/-- src/app.py lines 108-109. -/
def msg_sphinx_request : String :=
  "❗️ Sphinx indisponible: il faut installer `pocketsphinx` localement " ++
  "(ou choisissez Google Web Speech API)."

/-- src/app.py line 113. -/
def msg_api_unknown : String := "❗️ API non reconnue."

/-- src/app.py line 116. -/
def msg_file_not_found : String := "❗️ Fichier introuvable. Re-uploadez l’audio."

/-- src/app.py line 118. -/
def msg_bad_format : String :=
  "❗️ Format audio non supporté. Utilisez un fichier WAV ou FLAC."

/-- src/app.py line 121. -/
def msg_unexpected : String := "❗️ Erreur inattendue lors de la transcription."

/-! ## The transcription function -/

/-- What the external world does during one call of
`transcribe_speech_from_file`: each field is `none`/`.ok` when the
corresponding call succeeds, or carries the exception it raises. -/
structure TranscribeEnv where
  /-- Name of the uploaded file (`uploaded_file.name`, line 72). -/
  fileName : String
  /-- `tempfile.NamedTemporaryFile(...)` (line 74): `some e` when no file
  can be created at all. -/
  tmpCreate : Option Exc
  /-- `tmp.write(uploaded_file.read())` (line 75), reached only after the
  temp file exists on disk. -/
  tmpWrite : Option Exc
  /-- The `with sr.AudioFile(...)` block including
  `adjust_for_ambient_noise` and `record` (lines 81-84). -/
  audioOpenRecord : Option Exc
  /-- The provider call `recognize_google` / `recognize_sphinx`
  (lines 88 and 102): the recognized text, or the exception raised. -/
  recognize : Except Exc String
  /-- Whether `tmp_path.unlink(missing_ok=True)` (line 124) raises. -/
  unlinkFails : Bool
deriving Repr

/-- The observable outcome of one call, instrumented with the resource and
control-flow facts the claims talk about. -/
structure TResult where
  /-- First component of the returned pair: recognized text or error message. -/
  message : String
  /-- Second component: technical details, or `none`. -/
  debug : Option String
  /-- Whether the provider's recognize call was invoked. -/
  providerCalled : Bool
  /-- Whether a temp file came into existence on disk. -/
  tmpCreated : Bool
  /-- Whether that temp file was removed before returning. -/
  tmpDeleted : Bool
  /-- The suffix the temp file was requested with (line 72). -/
  tmpSuffix : String
deriving DecidableEq, Repr

/-- The message picked by the outer `except` clauses (lines 115-121):
`FileNotFoundError` and `ValueError` have dedicated clauses; every other
exception falls to the generic guard. -/
def outer_handler_message : Exc → String
  | .fileNotFoundError _ => msg_file_not_found
  | .valueError _ => msg_bad_format
  | _ => msg_unexpected

/-- Embedding of `transcribe_speech_from_file` (src/app.py lines 62-126).

Control flow of the source: compute the suffix; materialize the upload to a
temp file (`delete=False`) inside its own `try` — if creation fails nothing
exists on disk, while if the write fails the file already exists and the
early `return` at line 78 skips the later `finally`, so the file is leaked;
then the main `try` opens/records the audio, dispatches on `api`, catches
`UnknownValueError`/`RequestError` around each provider call, catches
`FileNotFoundError`/`ValueError`/`Exception` at the outer level, and its
`finally` unlinks the temp file, swallowing any unlink failure. -/
def transcribe_speech_from_file (env : TranscribeEnv) (api : String)
    (language : String) : TResult :=
  let suffix := pySuffix env.fileName
  match env.tmpCreate with
  | some e =>
    ⟨msg_tmp_fail, some (excDetail e), false, false, false, suffix⟩
  | none =>
    match env.tmpWrite with
    | some e =>
      ⟨msg_tmp_fail, some (excDetail e), false, true, false, suffix⟩
    | none =>
      -- the `finally` of the main `try` (lines 122-126)
      let deleted := !env.unlinkFails
      match env.audioOpenRecord with
      | some e =>
        ⟨outer_handler_message e, some (excDetail e), false, true, deleted, suffix⟩
      | none =>
        if api == "google" then
          match env.recognize with
          | .ok text => ⟨text, none, true, true, deleted, suffix⟩
          | .error (.unknownValueError s) =>
            ⟨msg_google_unknown, some (excName (.unknownValueError s)),
              true, true, deleted, suffix⟩
          | .error (.requestError s) =>
            ⟨msg_google_request, some (excDetail (.requestError s)),
              true, true, deleted, suffix⟩
          | .error e =>
            ⟨outer_handler_message e, some (excDetail e), true, true, deleted, suffix⟩
        else if api == "sphinx" then
          match env.recognize with
          | .ok text => ⟨text, none, true, true, deleted, suffix⟩
          | .error (.unknownValueError s) =>
            ⟨msg_sphinx_unknown, some (excName (.unknownValueError s)),
              true, true, deleted, suffix⟩
          | .error (.requestError s) =>
            ⟨msg_sphinx_request, some (excDetail (.requestError s)),
              true, true, deleted, suffix⟩
          | .error e =>
            ⟨outer_handler_message e, some (excDetail e), true, true, deleted, suffix⟩
        else
          ⟨msg_api_unknown, some ("api=" ++ api), false, true, deleted, suffix⟩

/-! ## Session state and the interaction handlers -/

/-- The two session-scoped values (src/app.py lines 8-14):
`st.session_state["last_transcript"]` (initially `None`) and
`st.session_state["segments"]` (initially `[]`). -/
structure SessionState where
  lastTranscript : Option String
  segments : List String
deriving DecidableEq, Repr

/-- The initial session state (src/app.py lines 8-14). -/
def initState : SessionState := ⟨none, []⟩

/-- Python truthiness of an optional string: a string is truthy iff
non-empty, `None` is falsy. -/
def pyTruthyStr : Option String → Bool
  | some t => !(t == "")
  | none => false

/-- Python truthiness of `st.session_state.get("last_transcript")`
(lines 160 and 178). -/
def lastTruthy (s : SessionState) : Bool :=
  pyTruthyStr s.lastTranscript

/-- The `transcribe_btn` handler once a message came back (src/app.py
lines 144-151): a message starting with the error marker clears
`last_transcript`; any other message is stored as the transcript.
`segments` is never touched here. -/
def transcribe_btn_handler (s : SessionState) (message : String) : SessionState :=
  if pyStartswith message err_marker then
    { s with lastTranscript := none }
  else
    { s with lastTranscript := some message }

/-- The `add_to_doc` button handler (src/app.py lines 167-168).  The button
exists only inside `if st.session_state.get("last_transcript"):`
(line 160), so the append can fire only when `last_transcript` is truthy. -/
def add_to_doc_action (s : SessionState) : SessionState :=
  if lastTruthy s then
    { s with segments := s.segments ++ [s.lastTranscript.getD ""] }
  else
    s

/-- The `reset_doc` button handler (src/app.py lines 171-172), guarded by
the same `if st.session_state.get("last_transcript"):` block.  It clears
`segments` only; `last_transcript` is not written. -/
def reset_doc_action (s : SessionState) : SessionState :=
  if lastTruthy s then
    { s with segments := [] }
  else
    s

/-- The single-result download (src/app.py lines 178-185): offered iff
`last_transcript` is truthy, with byte content
`last_transcript.encode("utf-8")`. -/
def single_download (s : SessionState) : Option ByteArray :=
  if lastTruthy s then
    some (s.lastTranscript.getD "").toUTF8
  else
    none

/-- Python truthiness of `st.session_state["segments"]` (line 189): the
cumulative-document block (display and download button) renders iff the
segment list is non-empty. -/
def cumulShown (s : SessionState) : Bool :=
  !s.segments.isEmpty

/-- `full_text = "\n".join(st.session_state["segments"]).strip()`
(src/app.py line 194). -/
def full_text (s : SessionState) : String :=
  pyStrip (pyJoin "\n" s.segments)

/-- The text shown under "Texte cumulé" (lines 195-196): `full_text` when
the block renders, nothing otherwise. -/
def cumul_display (s : SessionState) : String :=
  if cumulShown s then full_text s else ""

/-- The cumulative download (src/app.py lines 200-205): offered iff the
block renders, with byte content `full_text.encode("utf-8")`. -/
def cumul_download (s : SessionState) : Option ByteArray :=
  if cumulShown s then some (full_text s).toUTF8 else none

/-! ## Download file names -/

/-- `API_CHOICES` (src/app.py lines 32-35): label-to-value pairs. -/
def API_CHOICES : List (String × String) :=
  [("Google Web Speech API (en ligne)", "google"),
   ("Sphinx (hors-ligne — nécessite `pocketsphinx`)", "sphinx")]

/-- `LANG_MAP` (src/app.py lines 40-46). -/
def LANG_MAP : List (String × String) :=
  [("Français (fr-FR)", "fr-FR"),
   ("Anglais (en-US)", "en-US"),
   ("Espagnol (es-ES)", "es-ES"),
   ("Arabe (ar-SA)", "ar-SA"),
   ("Wolof (wo-SN)*", "wo-SN")]

/-- Name of the single-result download file (src/app.py line 179):
`f"transcription_{API_CHOICES[api_label].split()[0]}_{language_code}_{ts}.txt"`
where `ts` is the current `%Y%m%d-%H%M%S` timestamp. -/
def single_fname (api_value language_code ts : String) : String :=
  "transcription_" ++ pySplitHead api_value ++ "_" ++ language_code ++ "_"
    ++ ts ++ ".txt"

/-- Name of the cumulative download file (src/app.py line 199):
`f"transcription_cumulee_{language_code}_{ts}.txt"`.  It takes no
provider argument because the source string interpolates none. -/
def cumul_fname (language_code ts : String) : String :=
  "transcription_cumulee_" ++ language_code ++ "_" ++ ts ++ ".txt"

/-! ## Error taxonomy (spec section 7) -/

/-- The five failure kinds of the spec's taxonomy. -/
inductive ErrKind where
  | unrecognizedSpeech
  | serviceUnavailable
  | fileHandling
  | unsupportedFormat
  | unexpected
deriving DecidableEq, Repr

/-- Which taxonomy kind each user-facing error message belongs to;
`none` for a string that is not one of the script's error messages. -/
def kindOfMsg (m : String) : Option ErrKind :=
  if m == msg_google_unknown ∨ m == msg_sphinx_unknown then
    some .unrecognizedSpeech
  else if m == msg_google_request ∨ m == msg_sphinx_request then
    some .serviceUnavailable
  else if m == msg_tmp_fail ∨ m == msg_file_not_found then
    some .fileHandling
  else if m == msg_bad_format then
    some .unsupportedFormat
  else if m == msg_unexpected ∨ m == msg_api_unknown then
    some .unexpected
  else
    none

/-- All user-facing error messages of the script. -/
def allErrMessages : List String :=
  [msg_tmp_fail, msg_google_unknown, msg_google_request, msg_sphinx_unknown,
   msg_sphinx_request, msg_api_unknown, msg_file_not_found, msg_bad_format,
   msg_unexpected]

/-! ## Helper facts -/

/-- An environment in which every external call succeeds and the provider
returns `text`. -/
def goodEnv (name text : String) : TranscribeEnv :=
  ⟨name, none, none, none, .ok text, false⟩

/-- On a fully successful call with a known provider, the function returns
the provider text with no debug detail, having called the provider and
created and deleted the temp file. -/
theorem transcribe_success (name text lang api : String)
    (hapi : api = "google" ∨ api = "sphinx") :
    transcribe_speech_from_file (goodEnv name text) api lang
      = ⟨text, none, true, true, true, pySuffix name⟩ := by
  rcases hapi with h | h <;> subst h <;> rfl

/-- The handler stores a message not starting with the error marker. -/
theorem handler_store (s : SessionState) (m : String)
    (h : pyStartswith m err_marker = false) :
    transcribe_btn_handler s m = { s with lastTranscript := some m } := by
  simp [transcribe_btn_handler, h]

/-! ## The claims -/

/-- **C1** (as stated) fails: the provider can return, without raising, a
text that itself starts with the error marker; the caller then classifies
the call as an error and stores `None`, not the provider text.  Here the
provider returns `"❗️x"` with no exception (`debug = none`), yet the stored
last-transcript is `none ≠ some "❗️x"`. -/
theorem c1_counterexample :
    (transcribe_speech_from_file (goodEnv "a.wav" "❗️x") "google" "fr-FR").message
        = "❗️x"
  ∧ (transcribe_speech_from_file (goodEnv "a.wav" "❗️x") "google" "fr-FR").debug
        = none
  ∧ (transcribe_btn_handler initState
        (transcribe_speech_from_file (goodEnv "a.wav" "❗️x") "google" "fr-FR").message).lastTranscript
        = none := by
  decide

/-- **C1** (amended): for every successful recognition whose returned text
does not start with the error marker `"❗️"`, the stored last-transcript
equals exactly the provider's returned text, and whenever the single-result
download is offered its byte content is that text UTF-8-encoded. -/
theorem c1_theorem (name text lang api : String) (s : SessionState)
    (hapi : api = "google" ∨ api = "sphinx")
    (h : pyStartswith text err_marker = false) :
    (transcribe_speech_from_file (goodEnv name text) api lang).message = text
  ∧ (transcribe_speech_from_file (goodEnv name text) api lang).debug = none
  ∧ (transcribe_btn_handler s
        (transcribe_speech_from_file (goodEnv name text) api lang).message).lastTranscript
      = some text
  ∧ ∀ b, single_download (transcribe_btn_handler s
        (transcribe_speech_from_file (goodEnv name text) api lang).message) = some b →
      b = text.toUTF8 := by
  rw [transcribe_success name text lang api hapi]
  refine ⟨rfl, rfl, ?_, ?_⟩
  · rw [handler_store s text h]
  · intro b hb
    rw [handler_store s text h] at hb
    by_cases h0 : text = ""
    · simp [single_download, lastTruthy, pyTruthyStr, h0] at hb
    · simp [single_download, lastTruthy, pyTruthyStr, h0] at hb
      exact hb.symm

/-- **C1** witness: the amended claim at provider text `"bonjour"`. -/
theorem c1_witness :
    (transcribe_speech_from_file (goodEnv "a.wav" "bonjour") "google" "fr-FR").message
        = "bonjour"
  ∧ (transcribe_btn_handler initState
        (transcribe_speech_from_file (goodEnv "a.wav" "bonjour") "google" "fr-FR").message).lastTranscript
        = some "bonjour" :=
  ⟨( c1_theorem "a.wav" "bonjour" "fr-FR" "google" initState (Or.inl rfl) (by decide)).1,
   ( c1_theorem "a.wav" "bonjour" "fr-FR" "google" initState (Or.inl rfl) (by decide)).2.2.1⟩

/-- **C2**: when the returned message is classified as an error (it starts
with the error marker), the handler leaves the segment list unchanged and
clears the last-transcript, whatever it held before. -/
theorem c2_theorem (s : SessionState) (m : String)
    (h : pyStartswith m err_marker = true) :
    (transcribe_btn_handler s m).segments = s.segments
  ∧ (transcribe_btn_handler s m).lastTranscript = none := by
  simp [transcribe_btn_handler, h]

/-- **C2** witness: the generic error message, arriving in a state that
already held a transcript and one segment. -/
theorem c2_witness :
    pyStartswith msg_unexpected err_marker = true
  ∧ ((transcribe_btn_handler ⟨some "old", ["x"]⟩ msg_unexpected).segments = ["x"]
  ∧ (transcribe_btn_handler ⟨some "old", ["x"]⟩ msg_unexpected).lastTranscript = none) :=
  ⟨by decide, c2_theorem ⟨some "old", ["x"]⟩ msg_unexpected (by decide)⟩

/-- **C3** (as stated) fails on a transcript with leading whitespace: after
adding `" a"` then `"b"`, the segment list is `[" a", "b"]` as claimed, but
`full_text` applies `.strip()` to the joined string, so the cumulative
document is `"a\nb"`, not `" a" ++ "\n" ++ "b"`. -/
theorem c3_counterexample :
    (add_to_doc_action (transcribe_btn_handler
        (add_to_doc_action (transcribe_btn_handler initState " a")) "b")).segments
      = [" a", "b"]
  ∧ full_text (add_to_doc_action (transcribe_btn_handler
        (add_to_doc_action (transcribe_btn_handler initState " a")) "b"))
      = "a\nb"
  ∧ "a\nb" ≠ " a" ++ "\n" ++ "b" := by
  decide

/-- **C3** (amended): after transcribing and adding `A` then `B` from a
fresh session (both non-empty and not starting with the error marker, so
the add button is available), the segment list is `[A, B]` in append order,
and the cumulative document is `"A\nB"` **stripped of leading and trailing
whitespace** (the `.strip()` at src/app.py line 194). -/
theorem c3_theorem (A B : String)
    (hA : pyStartswith A err_marker = false) (hA0 : A ≠ "")
    (hB : pyStartswith B err_marker = false) (hB0 : B ≠ "") :
    (add_to_doc_action (transcribe_btn_handler
        (add_to_doc_action (transcribe_btn_handler initState A)) B)).segments
      = [A, B]
  ∧ full_text (add_to_doc_action (transcribe_btn_handler
        (add_to_doc_action (transcribe_btn_handler initState A)) B))
      = pyStrip (A ++ "\n" ++ B) := by
  rw [handler_store initState A hA]
  have h1 : add_to_doc_action { initState with lastTranscript := some A }
      = ⟨some A, [A]⟩ := by
    simp [add_to_doc_action, lastTruthy, pyTruthyStr, hA0, initState]
  rw [h1, handler_store ⟨some A, [A]⟩ B hB]
  have h2 : add_to_doc_action ⟨some B, [A]⟩ = ⟨some B, [A, B]⟩ := by
    simp [add_to_doc_action, lastTruthy, pyTruthyStr, hB0]
  rw [h2]
  exact ⟨rfl, rfl⟩

/-- **C3** witness: the spec's own scenario, `"bonjour"` then `"au revoir"`. -/
theorem c3_witness :
    (add_to_doc_action (transcribe_btn_handler
        (add_to_doc_action (transcribe_btn_handler initState "bonjour")) "au revoir")).segments
      = ["bonjour", "au revoir"]
  ∧ full_text (add_to_doc_action (transcribe_btn_handler
        (add_to_doc_action (transcribe_btn_handler initState "bonjour")) "au revoir"))
      = pyStrip ("bonjour" ++ "\n" ++ "au revoir") :=
  c3_theorem "bonjour" "au revoir" (by decide) (by decide) (by decide) (by decide)

/-- **C4**: whenever the reset button can fire (it is rendered only while
`last_transcript` is truthy), it empties the segment list, whatever that
list held; afterwards the cumulative-document block shows nothing and the
cumulative download is not offered. -/
theorem c4_theorem (s : SessionState) (h : lastTruthy s = true) :
    (reset_doc_action s).segments = []
  ∧ cumul_display (reset_doc_action s) = ""
  ∧ cumul_download (reset_doc_action s) = none := by
  simp [reset_doc_action, h, cumul_display, cumul_download, cumulShown]

/-- **C4** witness: resetting a session that holds a transcript and two
segments. -/
theorem c4_witness :
    lastTruthy ⟨some "x", ["a", "b"]⟩ = true
  ∧ ((reset_doc_action ⟨some "x", ["a", "b"]⟩).segments = []
  ∧ cumul_display (reset_doc_action ⟨some "x", ["a", "b"]⟩) = ""
  ∧ cumul_download (reset_doc_action ⟨some "x", ["a", "b"]⟩) = none) :=
  ⟨by decide, c4_theorem ⟨some "x", ["a", "b"]⟩ (by decide)⟩

/-- **C5** (as stated) fails: the reset handler clears only `segments` and
never writes `last_transcript` (src/app.py lines 171-172), so after a reset
in a state holding transcript `"x"`, the last-transcript is still
`some "x"`, not cleared as the claim requires. -/
theorem c5_counterexample :
    (reset_doc_action ⟨some "x", ["x"]⟩).lastTranscript = some "x" := by
  decide

/-- **C5** (amended): the last-transcript is set by the transcription
handler alone — to the message on a classified success, to `None` on a
classified failure — and both the add-to-document and the reset action
leave it unchanged (reset clears only the segment list). -/
theorem c5_theorem :
    (∀ s m, (transcribe_btn_handler s m).lastTranscript
        = (if pyStartswith m err_marker then none else some m))
  ∧ (∀ s, (add_to_doc_action s).lastTranscript = s.lastTranscript)
  ∧ (∀ s, (reset_doc_action s).lastTranscript = s.lastTranscript) := by
  refine ⟨fun s m => ?_, fun s => ?_, fun s => ?_⟩
  · by_cases h : pyStartswith m err_marker <;> simp [transcribe_btn_handler, h]
  · by_cases h : lastTruthy s <;> simp [add_to_doc_action, h]
  · by_cases h : lastTruthy s <;> simp [reset_doc_action, h]

/-- **C6**: the transcription function is total (it is a Lean function, so
it returns a `(message, debug)` pair for every environment, exception
pattern included); every return either is a success (`debug = none`) or
carries a message belonging to the five-kind taxonomy together with a
non-`none` technical detail; the error messages are pairwise distinct; and
every error message is classified by the taxonomy. -/
theorem c6_theorem :
    (∀ env api lang,
        (transcribe_speech_from_file env api lang).debug = none
      ∨ ((kindOfMsg (transcribe_speech_from_file env api lang).message).isSome = true
          ∧ (transcribe_speech_from_file env api lang).debug ≠ none))
  ∧ allErrMessages.Nodup
  ∧ (allErrMessages.all fun m => (kindOfMsg m).isSome) = true := by
  refine ⟨?_, by decide, by decide⟩
  intro env api lang
  rcases env with ⟨name, tc, tw, aor, rec, ul⟩
  cases tc with
  | some e =>
    right
    exact ⟨by simp [transcribe_speech_from_file]; decide,
           by simp [transcribe_speech_from_file]⟩
  | none =>
  cases tw with
  | some e =>
    right
    exact ⟨by simp [transcribe_speech_from_file]; decide,
           by simp [transcribe_speech_from_file]⟩
  | none =>
  cases aor with
  | some e =>
    right
    cases e <;>
      exact ⟨by simp [transcribe_speech_from_file, outer_handler_message]; decide,
             by simp [transcribe_speech_from_file, outer_handler_message]⟩
  | none =>
  cases hg : api == "google" with
  | true =>
    cases rec with
    | ok text => left; simp [transcribe_speech_from_file, hg]
    | error e =>
      right
      cases e <;>
        exact ⟨by simp [transcribe_speech_from_file, hg, outer_handler_message]; decide,
               by simp [transcribe_speech_from_file, hg, outer_handler_message]⟩
  | false =>
  cases hs : api == "sphinx" with
  | true =>
    cases rec with
    | ok text => left; simp [transcribe_speech_from_file, hg, hs]
    | error e =>
      right
      cases e <;>
        exact ⟨by simp [transcribe_speech_from_file, hg, hs, outer_handler_message]; decide,
               by simp [transcribe_speech_from_file, hg, hs, outer_handler_message]⟩
  | false =>
    right
    exact ⟨by simp [transcribe_speech_from_file, hg, hs]; decide,
           by simp [transcribe_speech_from_file, hg, hs]⟩

/-- **C7**: when opening the audio file raises a `ValueError` (the
unsupported-format failure of `sr.AudioFile`), the function returns the
"unsupported format" message and the provider's recognize call is never
invoked — whatever text or exception the provider would have produced. -/
theorem c7_theorem (name lang api detail : String) (rec : Except Exc String)
    (ul : Bool) :
    (transcribe_speech_from_file
        ⟨name, none, none, some (.valueError detail), rec, ul⟩ api lang).message
      = msg_bad_format
  ∧ (transcribe_speech_from_file
        ⟨name, none, none, some (.valueError detail), rec, ul⟩ api lang).providerCalled
      = false := by
  simp [transcribe_speech_from_file, outer_handler_message]

/-- **C8** (as stated) fails: when the temp file is created but writing the
audio payload into it raises (here a disk-full `OSError`), the `return` at
src/app.py line 78 is taken before the `try`/`finally` of lines 80-126 is
entered, so no unlink happens: the call exits on a classified error with
`tmpCreated = true` and `tmpDeleted = false` — the file is leaked. -/
theorem c8_counterexample :
    transcribe_speech_from_file
        ⟨"a.wav", none, some (.other "OSError" "No space left on device"),
          none, .ok "t", false⟩ "google" "fr-FR"
      = ⟨msg_tmp_fail, some "OSError: No space left on device",
          false, true, false, ".wav"⟩ := by
  decide

/-- Helper for C8: the returned `(message, debug)` pair never depends on
whether the final `unlink` fails — the `except: pass` at src/app.py
lines 123-126 swallows the failure. -/
theorem transcribe_unlink_swallowed (name : String) (tc tw aor : Option Exc)
    (rec : Except Exc String) (b₁ b₂ : Bool) (api lang : String) :
    (transcribe_speech_from_file ⟨name, tc, tw, aor, rec, b₁⟩ api lang).message
      = (transcribe_speech_from_file ⟨name, tc, tw, aor, rec, b₂⟩ api lang).message
  ∧ (transcribe_speech_from_file ⟨name, tc, tw, aor, rec, b₁⟩ api lang).debug
      = (transcribe_speech_from_file ⟨name, tc, tw, aor, rec, b₂⟩ api lang).debug := by
  cases tc with
  | some e => simp [transcribe_speech_from_file]
  | none =>
  cases tw with
  | some e => simp [transcribe_speech_from_file]
  | none =>
  cases aor with
  | some e => simp [transcribe_speech_from_file]
  | none =>
  cases hg : api == "google" with
  | true =>
    cases rec with
    | ok text => simp [transcribe_speech_from_file, hg]
    | error e => cases e <;> simp [transcribe_speech_from_file, hg]
  | false =>
  cases hs : api == "sphinx" with
  | true =>
    cases rec with
    | ok text => simp [transcribe_speech_from_file, hg, hs]
    | error e => cases e <;> simp [transcribe_speech_from_file, hg, hs]
  | false => simp [transcribe_speech_from_file, hg, hs]

/-- **C8** (amended): provided the write into the fresh temp file succeeds,
every exit path (success, classified error, unexpected exception) deletes
the temp file it created — unless the unlink itself fails, which is
silently swallowed: the returned message and detail are the same whether or
not the unlink fails. -/
theorem c8_theorem (name : String) (tc aor : Option Exc)
    (rec : Except Exc String) (api lang : String) :
    ((transcribe_speech_from_file ⟨name, tc, none, aor, rec, false⟩ api lang).tmpCreated = true →
      (transcribe_speech_from_file ⟨name, tc, none, aor, rec, false⟩ api lang).tmpDeleted = true)
  ∧ (∀ b : Bool,
      (transcribe_speech_from_file ⟨name, tc, none, aor, rec, b⟩ api lang).message
        = (transcribe_speech_from_file ⟨name, tc, none, aor, rec, false⟩ api lang).message
    ∧ (transcribe_speech_from_file ⟨name, tc, none, aor, rec, b⟩ api lang).debug
        = (transcribe_speech_from_file ⟨name, tc, none, aor, rec, false⟩ api lang).debug) := by
  constructor
  · intro h
    cases tc with
    | some e => simp [transcribe_speech_from_file] at h
    | none =>
    cases aor with
    | some e => simp [transcribe_speech_from_file]
    | none =>
    cases hg : api == "google" with
    | true =>
      cases rec with
      | ok text => simp [transcribe_speech_from_file, hg]
      | error e => cases e <;> simp [transcribe_speech_from_file, hg]
    | false =>
    cases hs : api == "sphinx" with
    | true =>
      cases rec with
      | ok text => simp [transcribe_speech_from_file, hg, hs]
      | error e => cases e <;> simp [transcribe_speech_from_file, hg, hs]
    | false => simp [transcribe_speech_from_file, hg, hs]
  · intro b
    exact transcribe_unlink_swallowed name tc none aor rec b false api lang

/-- **C8** witness: a fully successful call deletes its temp file, and an
unlink failure leaves the returned message unchanged. -/
theorem c8_witness :
    (transcribe_speech_from_file ⟨"c.wav", none, none, none, .ok "t", false⟩
        "google" "fr-FR").tmpDeleted = true
  ∧ (transcribe_speech_from_file ⟨"c.wav", none, none, none, .ok "t", true⟩
        "google" "fr-FR").message
      = (transcribe_speech_from_file ⟨"c.wav", none, none, none, .ok "t", false⟩
        "google" "fr-FR").message :=
  ⟨( c8_theorem "c.wav" none none (.ok "t") "google" "fr-FR").1 (by decide),
   (( c8_theorem "c.wav" none none (.ok "t") "google" "fr-FR").2 true).1⟩

/-- **C9** (as stated) fails for the cumulative artifact: its file name
interpolates only the language code and the timestamp
(src/app.py line 199) — neither provider value occurs in it. -/
theorem c9_counterexample :
    cumul_fname "fr-FR" "20260101-000000"
      = "transcription_cumulee_fr-FR_20260101-000000.txt"
  ∧ ¬ ("google".data <:+: (cumul_fname "fr-FR" "20260101-000000").data)
  ∧ ¬ ("sphinx".data <:+: (cumul_fname "fr-FR" "20260101-000000").data) := by
  decide

/-- **C9** (amended): the single-result file name carries the provider
value, the language code and the timestamp; the cumulative file name
carries the language code and the timestamp, but not the provider. -/
theorem c9_theorem (api lang ts : String)
    (hapi : api = "google" ∨ api = "sphinx") :
    (api.data <:+: (single_fname api lang ts).data)
  ∧ (lang.data <:+: (single_fname api lang ts).data)
  ∧ (ts.data <:+: (single_fname api lang ts).data)
  ∧ (lang.data <:+: (cumul_fname lang ts).data)
  ∧ (ts.data <:+: (cumul_fname lang ts).data) := by
  have hsplit : pySplitHead api = api := by
    rcases hapi with h | h <;> subst h <;> decide
  refine ⟨?_, ?_, ?_, ?_, ?_⟩
  · exact ⟨"transcription_".data, ("_" ++ lang ++ "_" ++ ts ++ ".txt").data, by
      simp [single_fname, hsplit, String.data_append]⟩
  · exact ⟨("transcription_" ++ pySplitHead api ++ "_").data,
      ("_" ++ ts ++ ".txt").data, by simp [single_fname, String.data_append]⟩
  · exact ⟨("transcription_" ++ pySplitHead api ++ "_" ++ lang ++ "_").data,
      ".txt".data, by simp [single_fname, String.data_append]⟩
  · exact ⟨"transcription_cumulee_".data, ("_" ++ ts ++ ".txt").data, by
      simp [cumul_fname, String.data_append]⟩
  · exact ⟨("transcription_cumulee_" ++ lang ++ "_").data, ".txt".data, by
      simp [cumul_fname, String.data_append]⟩

/-- **C9** witness: the amended claim at provider `"google"`, language
`"fr-FR"` and a concrete timestamp. -/
theorem c9_witness :
    ("google".data <:+: (single_fname "google" "fr-FR" "20260101-000000").data)
  ∧ ("fr-FR".data <:+: (cumul_fname "fr-FR" "20260101-000000").data) :=
  ⟨( c9_theorem "google" "fr-FR" "20260101-000000" (Or.inl rfl)).1,
   ( c9_theorem "google" "fr-FR" "20260101-000000" (Or.inl rfl)).2.2.2.1⟩

/-- **C10**: every return of the transcription function with a non-`none`
technical detail has a message starting with `"❗️"`; every return with
detail `none` is exactly the provider's raw text; and the caller
classifies success versus error precisely by the `"❗️"` prefix test — so a
provider transcript that itself begins with `"❗️"` is treated as an error
(witnessed concretely in `c10_witness`). -/
theorem c10_theorem :
    (∀ env api lang, (transcribe_speech_from_file env api lang).debug ≠ none →
        pyStartswith (transcribe_speech_from_file env api lang).message err_marker
          = true)
  ∧ (∀ env api lang, (transcribe_speech_from_file env api lang).debug = none →
        env.recognize = .ok (transcribe_speech_from_file env api lang).message)
  ∧ (∀ s m, (transcribe_btn_handler s m).lastTranscript
        = (if pyStartswith m err_marker then none else some m)) := by
  refine ⟨?_, ?_, fun s m => ?_⟩
  · intro env api lang h
    rcases env with ⟨name, tc, tw, aor, rec, ul⟩
    cases tc with
    | some e => simp [transcribe_speech_from_file]; decide
    | none =>
    cases tw with
    | some e => simp [transcribe_speech_from_file]; decide
    | none =>
    cases aor with
    | some e =>
      cases e <;> (simp [transcribe_speech_from_file, outer_handler_message]; decide)
    | none =>
    cases hg : api == "google" with
    | true =>
      cases rec with
      | ok text => simp [transcribe_speech_from_file, hg] at h
      | error e =>
        cases e <;>
          (simp [transcribe_speech_from_file, hg, outer_handler_message]; decide)
    | false =>
    cases hs : api == "sphinx" with
    | true =>
      cases rec with
      | ok text => simp [transcribe_speech_from_file, hg, hs] at h
      | error e =>
        cases e <;>
          (simp [transcribe_speech_from_file, hg, hs, outer_handler_message]; decide)
    | false => simp [transcribe_speech_from_file, hg, hs]; decide
  · intro env api lang h
    rcases env with ⟨name, tc, tw, aor, rec, ul⟩
    cases tc with
    | some e => simp [transcribe_speech_from_file] at h
    | none =>
    cases tw with
    | some e => simp [transcribe_speech_from_file] at h
    | none =>
    cases aor with
    | some e => simp [transcribe_speech_from_file] at h
    | none =>
    cases hg : api == "google" with
    | true =>
      cases rec with
      | ok text => simp [transcribe_speech_from_file, hg]
      | error e =>
        cases e <;> simp [transcribe_speech_from_file, hg, outer_handler_message] at h
    | false =>
    cases hs : api == "sphinx" with
    | true =>
      cases rec with
      | ok text => simp [transcribe_speech_from_file, hg, hs]
      | error e =>
        cases e <;>
          simp [transcribe_speech_from_file, hg, hs, outer_handler_message] at h
    | false => simp [transcribe_speech_from_file, hg, hs] at h
  · by_cases h : pyStartswith m err_marker <;> simp [transcribe_btn_handler, h]

/-- **C10** witness: an unknown-api failure carries the marker; a provider
text `"❗️ oops"` returned without raising yields `debug = none` and is the
raw message; and the caller's prefix test then clears the transcript. -/
theorem c10_witness :
    ((transcribe_speech_from_file (goodEnv "a.wav" "t") "teams" "fr-FR").debug ≠ none
  ∧ pyStartswith (transcribe_speech_from_file (goodEnv "a.wav" "t") "teams"
      "fr-FR").message err_marker = true)
  ∧ ((transcribe_speech_from_file (goodEnv "b.wav" "❗️ oops") "google" "fr-FR").debug
      = none
  ∧ (goodEnv "b.wav" "❗️ oops").recognize
      = .ok (transcribe_speech_from_file (goodEnv "b.wav" "❗️ oops") "google"
          "fr-FR").message)
  ∧ (transcribe_btn_handler initState "❗️ oops").lastTranscript
      = (if pyStartswith "❗️ oops" err_marker then none else some "❗️ oops") :=
  ⟨⟨by decide, c10_theorem.1 (goodEnv "a.wav" "t") "teams" "fr-FR" (by decide)⟩,
   ⟨by decide, c10_theorem.2.1 (goodEnv "b.wav" "❗️ oops") "google" "fr-FR" (by decide)⟩,
   c10_theorem.2.2 initState "❗️ oops"⟩
